import Mathlib

/-!
Verification development for the bitrise cache-pull step.

Bytes are modelled as `Nat`; a byte stream is a `List Nat`.  The code under
verification is `archive.go` (format sniffing via `readFirstEntry`), the
legacy `main.go` variants (download, retry, URL resolution, manual tar
extraction, content placement), and the spec-modelled components whose
source is not in the repository snapshot (RestoreReader, stack gate,
manifest lookup).
-/

/-- Modelled from the spec: the RestorableStream (RestoreReader) implementation
is not part of the source snapshot (only its caller `readFirstEntry` in
`archive.go` is).  Per spec section 4.1 and the design note in section 9, it is
a two-phase buffer: while probing, every byte served is recorded in an internal
queue; `restore()` causes subsequent reads to replay the recorded bytes first,
then continue with the remainder of the underlying source.
`pending` holds the bytes the next reads will return in order, `recorded` the
bytes already served during the speculative phase. -/
structure RestoreReader where
  pending : List Nat
  recorded : List Nat
  restored : Bool
deriving DecidableEq

/-- NewRestoreReader wraps a source byte stream (archive.go line 48). -/
def NewRestoreReader (s : List Nat) : RestoreReader :=
  { pending := s, recorded := [], restored := false }

/-- Sequential read of `n` bytes; bytes served before `restore()` are recorded
so they can be replayed. -/
def RestoreReader.read (r : RestoreReader) (n : Nat) : List Nat × RestoreReader :=
  (r.pending.take n,
   { pending := r.pending.drop n
     recorded := if r.restored then r.recorded else r.recorded ++ r.pending.take n
     restored := r.restored })

/-- Restore (archive.go line 61): the next reads replay all recorded bytes,
then continue with the remaining source bytes. -/
def RestoreReader.restore (r : RestoreReader) : RestoreReader :=
  { pending := r.recorded ++ r.pending, recorded := [], restored := true }

/-- Read the stream to exhaustion. -/
def RestoreReader.readAll (r : RestoreReader) : List Nat × RestoreReader :=
  r.read r.pending.length

/-- Length of the fixed gzip member header read by Go's `gzip.NewReader`
(ID1, ID2, CM, FLG, 4-byte MTIME, XFL, OS). -/
def gzipHeaderLen : Nat := 10

/-- A concrete valid gzip header: magic bytes 0x1f 0x8b, CM = 8 (deflate),
empty flags/mtime, XFL 0, OS 255 (unknown). -/
def gzipMagic : List Nat := [31, 139, 8, 0, 0, 0, 0, 0, 0, 255]

/-- Models the header validation of Go's `compress/gzip.NewReader`: it fails
with `ErrHeader` unless a full 10-byte header with magic 0x1f 0x8b and
compression method 8 is present. -/
def isGzipHeader (hdr : List Nat) : Bool :=
  decide (hdr.length = gzipHeaderLen ∧ hdr.take 3 = [31, 139, 8])

/-- Models gzip compression at the detection level used by this program: a
valid member header followed by the payload (the deflate layer is modelled as
the identity, which is faithful for every observation the program makes:
detection looks only at the header, and decoding recovers the payload). -/
def gzipEncode (payload : List Nat) : List Nat :=
  gzipMagic ++ payload

/-- A tar entry as surfaced by Go's `archive/tar` reader: header name, type
flag, link name, permission mode, and the entry payload.  Paths are byte
lists at this layer. -/
structure TarEntry where
  name : List Nat
  typeflag : Nat
  linkname : List Nat
  mode : Nat
  body : List Nat
deriving DecidableEq

/-- Length-prefixed chunk encoding used by the byte-level tar model. -/
def encodeChunk (l : List Nat) : List Nat :=
  l.length :: l

/-- Reads one length-prefixed chunk from the stream. -/
def readChunk (s : List Nat) : Option (List Nat × List Nat) :=
  match s with
  | [] => none
  | n :: t => if n ≤ t.length then some (t.take n, t.drop n) else none

/-- Reads one byte from the stream. -/
def readByte (s : List Nat) : Option (Nat × List Nat) :=
  match s with
  | [] => none
  | b :: t => some (b, t)

/-- Byte-level encoding of one tar entry in the model: a nonzero marker byte
followed by the header fields and the payload.  (Real tar uses 512-byte
header blocks; the model keeps the same structure — per-entry header then
payload, entries in sequence — at byte granularity.) -/
def tarEncodeEntry (e : TarEntry) : List Nat :=
  1 :: (encodeChunk e.name ++ e.typeflag :: encodeChunk e.linkname ++
        e.mode :: encodeChunk e.body)

/-- Byte-level encoding of a whole archive: entries in order, terminated by a
zero marker byte (modelling tar's end-of-archive zero blocks). -/
def tarEncode : List TarEntry → List Nat
  | [] => [0]
  | e :: t => tarEncodeEntry e ++ tarEncode t

/-- Parses the header fields and payload of one entry. -/
def parseEntry (s : List Nat) : Option (TarEntry × List Nat) := do
  let (name, s1) ← readChunk s
  let (tf, s2) ← readByte s1
  let (link, s3) ← readChunk s2
  let (mode, s4) ← readByte s3
  let (body, s5) ← readChunk s4
  pure (⟨name, tf, link, mode, body⟩, s5)

/-- Models `tar.Reader.Next`: an exhausted stream or an end-of-archive marker
yields EOF (modelled `Except.ok none`, mirroring the nil-header EOF result);
a valid entry yields its header/payload and the remaining stream; anything
else is a tar format error. -/
def tarNext (s : List Nat) : Except String (Option (TarEntry × List Nat)) :=
  match s with
  | [] => Except.ok none
  | 0 :: _ => Except.ok none
  | 1 :: rest =>
    match parseEntry rest with
    | none => Except.error tarErrMsg
    | some (e, r) => Except.ok (some (e, r))
  | _ :: _ => Except.error tarErrMsg
where
  tarErrMsg : String := "archive/tar: invalid tar header"

/-- The format sniff performed by `readFirstEntry` (archive.go lines 48-63):
wrap the stream in a RestoreReader, attempt to open it as gzip (which reads
the member header); on success all subsequent reads go through the decoder,
on failure the reader is restored and the original bytes are used directly.
Returns whether the gzip path was taken and the byte stream handed to
`tar.NewReader`. -/
def sniff (s : List Nat) : Bool × List Nat :=
  let r0 := NewRestoreReader s
  let hr := r0.read gzipHeaderLen
  if isGzipHeader hr.1 then (true, hr.2.pending)
  else (false, hr.2.restore.pending)

/-- readFirstEntry (archive.go lines 47-76): sniff the format, then read the
first entry of the resulting tar stream.  `Except.ok none` models the Go
result `(nil, nil, nil)` for an archive with no entries. -/
def readFirstEntry (s : List Nat) : Except String (Option (TarEntry × List Nat)) :=
  tarNext (sniff s).2

/-- Fuel-indexed full parse of a tar stream into its entry list. -/
def tarReadAllFuel : Nat → List Nat → Except String (List TarEntry)
  | 0, _ => Except.error outOfFuelMsg
  | Nat.succ fuel, s =>
    match tarNext s with
    | Except.error e => Except.error e
    | Except.ok none => Except.ok []
    | Except.ok (some (e, r)) =>
      match tarReadAllFuel fuel r with
      | Except.error msg => Except.error msg
      | Except.ok es => Except.ok (e :: es)
where
  outOfFuelMsg : String := "tar stream did not terminate"

/-- Full archive read through the sniffer: the entry list observable by the
manifest lookup and by extraction.  Each entry consumes at least one byte, so
the stream length plus one is always enough fuel. -/
def readArchiveEntries (s : List Nat) : Except String (List TarEntry) :=
  tarReadAllFuel ((sniff s).2.length + 1) (sniff s).2

/-- Modelled from the spec: the ManifestReader (section 4.5) locates the
manifest as the archive entry whose path matches a fixed sentinel name; its
current source is not in the repository snapshot. -/
def locateManifest (sentinel : List Nat) (es : List TarEntry) : Option TarEntry :=
  es.find? (fun e => e.name == sentinel)

-- Basic codec lemmas

theorem readChunk_encode (l rest : List Nat) :
    readChunk (encodeChunk l ++ rest) = some (l, rest) := by
  simp [readChunk, encodeChunk, List.take_left, List.drop_left]

theorem parseEntry_encode (e : TarEntry) (r : List Nat) :
    parseEntry (encodeChunk e.name ++ e.typeflag ::
      (encodeChunk e.linkname ++ e.mode :: (encodeChunk e.body ++ r))) =
      some (e, r) := by
  simp [parseEntry, readChunk_encode, readByte, bind, Option.bind]

theorem tarNext_encodeEntry (e : TarEntry) (r : List Nat) :
    tarNext (tarEncodeEntry e ++ r) = Except.ok (some (e, r)) := by
  have h : tarEncodeEntry e ++ r =
      1 :: (encodeChunk e.name ++ e.typeflag :: encodeChunk e.linkname ++
        e.mode :: encodeChunk e.body ++ r) := by
    simp [tarEncodeEntry]
  rw [h]
  simp [tarNext, parseEntry_encode]

theorem tarReadAllFuel_encode :
    ∀ (es : List TarEntry) (fuel : Nat), es.length < fuel →
      tarReadAllFuel fuel (tarEncode es) = Except.ok es := by
  intro es
  induction es with
  | nil =>
    intro fuel hf
    match fuel, hf with
    | Nat.succ f, _ => simp [tarReadAllFuel, tarEncode, tarNext]
  | cons e t ih =>
    intro fuel hf
    match fuel, hf with
    | Nat.succ f, hf =>
      have ht : t.length < f := by
        simpa [Nat.succ_lt_succ_iff] using hf
      simp [tarReadAllFuel, tarEncode, tarNext_encodeEntry, ih f ht]

-- Sniffing lemmas

theorem sniff_eq (s : List Nat) :
    sniff s =
      if isGzipHeader (s.take gzipHeaderLen) then (true, s.drop gzipHeaderLen)
      else (false, s) := by
  by_cases h : isGzipHeader (s.take gzipHeaderLen) = true
  · simp [sniff, NewRestoreReader, RestoreReader.read, h]
  · simp only [Bool.not_eq_true] at h
    simp [sniff, NewRestoreReader, RestoreReader.read, RestoreReader.restore, h,
      List.take_append_drop]

theorem isGzipHeader_take_tarEncode (es : List TarEntry) :
    isGzipHeader ((tarEncode es).take gzipHeaderLen) = false := by
  cases es with
  | nil => simp [tarEncode]; decide
  | cons e t =>
    have h : tarEncode (e :: t) =
        1 :: (encodeChunk e.name ++ e.typeflag :: encodeChunk e.linkname ++
          e.mode :: encodeChunk e.body ++ tarEncode t) := by
      simp [tarEncode, tarEncodeEntry]
    rw [h]
    simp [isGzipHeader, gzipHeaderLen, List.take_cons]

theorem sniff_gzipEncode (p : List Nat) : sniff (gzipEncode p) = (true, p) := by
  have hlen : gzipMagic.length = gzipHeaderLen := by decide
  have htake : (gzipEncode p).take gzipHeaderLen = gzipMagic := by
    rw [gzipEncode, ← hlen, List.take_left]
  have hdrop : (gzipEncode p).drop gzipHeaderLen = p := by
    rw [gzipEncode, ← hlen, List.drop_left]
  rw [sniff_eq, htake, hdrop]
  simp [isGzipHeader]; decide

theorem sniff_tarEncode (es : List TarEntry) :
    sniff (tarEncode es) = (false, tarEncode es) := by
  rw [sniff_eq, isGzipHeader_take_tarEncode]
  simp

theorem length_le_tarEncode (es : List TarEntry) :
    es.length ≤ (tarEncode es).length := by
  induction es with
  | nil => simp [tarEncode]
  | cons e t ih =>
    have h : (tarEncodeEntry e).length = (encodeChunk e.name ++
        e.typeflag :: encodeChunk e.linkname ++ e.mode :: encodeChunk e.body).length + 1 := by
      simp [tarEncodeEntry]
    simp only [tarEncode, List.length_append, List.length_cons]
    omega

theorem readArchiveEntries_tarEncode (es : List TarEntry) :
    readArchiveEntries (tarEncode es) = Except.ok es := by
  have h := sniff_tarEncode es
  simp only [readArchiveEntries, h]
  exact tarReadAllFuel_encode es _ (Nat.lt_succ_of_le (length_le_tarEncode es))

theorem readArchiveEntries_gzipEncode (es : List TarEntry) :
    readArchiveEntries (gzipEncode (tarEncode es)) = Except.ok es := by
  have h := sniff_gzipEncode (tarEncode es)
  simp only [readArchiveEntries, h]
  exact tarReadAllFuel_encode es _ (Nat.lt_succ_of_le (length_le_tarEncode es))

-- Claim theorems for the sniffing / RestoreReader component

/-- C2: for every byte sequence S and every prefix length k with k ≤ |S|
(including 0 and |S|), reading k bytes from a RestorableStream wrapping S,
then calling restore(), then reading the stream to exhaustion, yields exactly
S (and the first read really served k bytes). -/
theorem restorable_stream_fidelity (S : List Nat) (k : Nat) (hk : k ≤ S.length) :
    ((NewRestoreReader S).read k).1.length = k ∧
    ((NewRestoreReader S).read k).2.restore.readAll.1 = S := by
  constructor
  · simp [NewRestoreReader, RestoreReader.read, hk]
  · simp [NewRestoreReader, RestoreReader.read, RestoreReader.restore,
      RestoreReader.readAll, List.take_append_drop, List.take_length]

/-- Witness for C2 at S = [10, 20, 30], k = 2. -/
theorem restorable_stream_fidelity_witness :
    ((NewRestoreReader [10, 20, 30]).read 2).1.length = 2 ∧
    ((NewRestoreReader [10, 20, 30]).read 2).2.restore.readAll.1 = [10, 20, 30] :=
  restorable_stream_fidelity [10, 20, 30] 2 (by decide)

/-- C3: the sniffer first tries the stream as gzip; exactly when that open
fails it restores the reader and re-parses the original bytes as uncompressed
tar, with no byte consumed or lost (the tar layer sees exactly the original
stream); the two paths are mutually exclusive and exhaustive (the taken path
equals the gzip-header test on every stream). -/
theorem sniffer_exclusive_exhaustive (s : List Nat) :
    (sniff s).1 = isGzipHeader (s.take gzipHeaderLen) ∧
    (isGzipHeader (s.take gzipHeaderLen) = true →
      sniff s = (true, s.drop gzipHeaderLen) ∧
      readFirstEntry s = tarNext (s.drop gzipHeaderLen)) ∧
    (isGzipHeader (s.take gzipHeaderLen) = false →
      sniff s = (false, s) ∧ readFirstEntry s = tarNext s) := by
  by_cases h : isGzipHeader (s.take gzipHeaderLen) = true
  · rw [sniff_eq]
    simp [readFirstEntry, sniff_eq, h]
  · simp only [Bool.not_eq_true] at h
    rw [sniff_eq]
    simp [readFirstEntry, sniff_eq, h]

/-- Witness for C3 at a stream that is not gzip (single zero byte). -/
theorem sniffer_exclusive_exhaustive_witness :
    sniff [0] = (false, [0]) ∧ readFirstEntry [0] = tarNext [0] :=
  (sniffer_exclusive_exhaustive [0]).2.2 (by decide)

/-- C9: a wrapped stream with zero archive entries is reported as an empty
archive, not an error: readFirstEntry returns no entry and no error
(Except.ok none), and emptiness is distinguished exactly by the absence of a
returned header. -/
theorem empty_archive_condition (es : List TarEntry) :
    readFirstEntry (tarEncode []) = Except.ok none ∧
    readFirstEntry (gzipEncode (tarEncode [])) = Except.ok none ∧
    readFirstEntry [] = Except.ok none ∧
    (readFirstEntry (tarEncode es) = Except.ok none ↔ es = []) := by
  refine ⟨rfl, rfl, rfl, ?_⟩
  constructor
  · intro h
    cases es with
    | nil => rfl
    | cons e t =>
      rw [readFirstEntry, sniff_tarEncode, tarEncode, tarNext_encodeEntry] at h
      simp at h
  · intro h
    subst h
    rfl

/-- Witness for C9 at the empty entry list. -/
theorem empty_archive_condition_witness :
    readFirstEntry (tarEncode []) = Except.ok none :=
  (empty_archive_condition []).1

/-- C1: every archive in both encodings — uncompressed tar and its
gzip-compressed form — is successfully read with identical observable
results, without the caller declaring the format: the full entry list, the
first entry, and any manifest lookup over the entries coincide. -/
theorem both_encodings_identical (es : List TarEntry) (sentinel : List Nat) :
    readArchiveEntries (tarEncode es) = Except.ok es ∧
    readArchiveEntries (gzipEncode (tarEncode es)) = Except.ok es ∧
    readFirstEntry (tarEncode es) = readFirstEntry (gzipEncode (tarEncode es)) ∧
    (readArchiveEntries (tarEncode es)).map (locateManifest sentinel) =
      (readArchiveEntries (gzipEncode (tarEncode es))).map (locateManifest sentinel) := by
  refine ⟨readArchiveEntries_tarEncode es, readArchiveEntries_gzipEncode es, ?_, ?_⟩
  · rw [readFirstEntry, readFirstEntry, sniff_tarEncode, sniff_gzipEncode]
  · rw [readArchiveEntries_tarEncode, readArchiveEntries_gzipEncode]

-- Manual extraction strategy (untarFile and helpers, legacy main variant)

/-- Models Go's `path/filepath.Clean` on relative slash-separated paths, with
a path represented as its component list: empty and dot components are
dropped, a dot-dot component removes the preceding component (unless that one
is itself a kept dot-dot).  The accumulator holds kept components reversed. -/
def cleanPush (acc : List String) (c : String) : List String :=
  if c = "" ∨ c = "." then acc
  else if c = ".." then
    match acc with
    | [] => [".."]
    | h :: t => if h = ".." then c :: h :: t else t
  else c :: acc

/-- filepath.Clean over a component list. -/
def cleanPath (p : List String) : List String :=
  (p.foldl cleanPush []).reverse

/-- Models `filepath.Join(a, b)`: concatenate and clean. -/
def joinPath (a b : List String) : List String :=
  cleanPath (a ++ b)

/-- Models `filepath.Dir(p)`: drop the final component and clean. -/
def dirPath (p : List String) : List String :=
  cleanPath p.dropLast

-- Go archive/tar type flag constants (byte values)

/-- tar.TypeReg, the character digit zero. -/
def typeReg : Nat := 48

/-- tar.TypeRegA, the NUL byte. -/
def typeRegA : Nat := 0

/-- tar.TypeLink (hard link), the character digit one. -/
def typeLink : Nat := 49

/-- tar.TypeSymlink, the character digit two. -/
def typeSymlink : Nat := 50

/-- tar.TypeChar, the character digit three. -/
def typeChar : Nat := 51

/-- tar.TypeBlock, the character digit four. -/
def typeBlock : Nat := 52

/-- tar.TypeDir, the character digit five. -/
def typeDir : Nat := 53

/-- tar.TypeFifo, the character digit six. -/
def typeFifo : Nat := 54

/-- A tar header as consumed by the manual extractor `untarFile`, with paths
viewed as component lists. -/
structure UntarHeader where
  name : List String
  typeflag : Nat
  linkname : List String
  mode : Nat
deriving DecidableEq

/-- Filesystem operations issued by the manual extractor, in issue order. -/
inductive FSAction where
  | mkdirAll (path : List String)
  | createFile (path : List String) (mode : Nat)
  | symlink (target : List String) (path : List String)
  | hardlink (target : List String) (path : List String)
deriving DecidableEq

/-- writeNewFile (legacy main, lines 127-149): create the parent directories,
then create the file, apply the recorded mode and copy the payload (the
create/chmod/copy sequence is one createFile action here). -/
def writeNewFile (fpath : List String) (fm : Nat) : List FSAction :=
  [FSAction.mkdirAll (dirPath fpath), FSAction.createFile fpath fm]

/-- writeNewSymbolicLink (legacy main, lines 151-163): create the parent
directories, then a symlink whose target is the recorded link name verbatim. -/
def writeNewSymbolicLink (fpath target : List String) : List FSAction :=
  [FSAction.mkdirAll (dirPath fpath), FSAction.symlink target fpath]

/-- writeNewHardLink (legacy main, lines 165-177): create the parent
directories, then a hard link at fpath pointing at target. -/
def writeNewHardLink (fpath target : List String) : List FSAction :=
  [FSAction.mkdirAll (dirPath fpath), FSAction.hardlink target fpath]

/-- mkdir (legacy main, lines 179-185). -/
def mkdir (dpath : List String) : List FSAction :=
  [FSAction.mkdirAll dpath]

/-- untarFile (legacy main, lines 112-125): branch on the entry type flag.
The hard-link case passes `filepath.Join(header.Name, header.Linkname)` as the
link target — the link name joined onto the full entry path. -/
def untarFile (h : UntarHeader) : Except String (List FSAction) :=
  if h.typeflag = typeDir then Except.ok (mkdir h.name)
  else if h.typeflag = typeReg ∨ h.typeflag = typeRegA ∨ h.typeflag = typeChar ∨
      h.typeflag = typeBlock ∨ h.typeflag = typeFifo then
    Except.ok (writeNewFile h.name h.mode)
  else if h.typeflag = typeSymlink then
    Except.ok (writeNewSymbolicLink h.name h.linkname)
  else if h.typeflag = typeLink then
    Except.ok (writeNewHardLink h.name (joinPath h.name h.linkname))
  else Except.error unknownTypeMsg
where
  unknownTypeMsg : String := "unknown type flag"

/-- Modelled from the spec: the claimed hard-link target, "the recorded link
name resolved against the entry's own directory". -/
def hardLinkTargetSpec (name linkname : List String) : List String :=
  joinPath (dirPath name) linkname

-- Claim theorems for the manual extractor

/-- C7 counterexample: for the hard-link entry with path a/b and recorded
link name c, the extractor links to a/b/c (the link name joined onto the full
entry path), not to a/c (the link name resolved against the entry's own
directory, as the claim states); the two targets differ. -/
theorem untar_hardlink_cex :
    untarFile ⟨["a", "b"], typeLink, ["c"], 0⟩ =
      Except.ok [FSAction.mkdirAll ["a"], FSAction.hardlink ["a", "b", "c"] ["a", "b"]] ∧
    hardLinkTargetSpec ["a", "b"] ["c"] = ["a", "c"] ∧
    FSAction.hardlink ["a", "b", "c"] (["a", "b"] : List String) ≠
      FSAction.hardlink (hardLinkTargetSpec ["a", "b"] ["c"]) ["a", "b"] := by
  refine ⟨rfl, rfl, by decide⟩

/-- C7 amended: for every hard-link entry, the extractor first ensures the
parent directories of the entry path exist, then creates a hard link at the
entry path whose target is the recorded link name joined onto the full entry
path itself (filepath.Join of entry path and link name), not onto the entry's
parent directory. -/
theorem untar_hardlink (h : UntarHeader) (ht : h.typeflag = typeLink) :
    untarFile h = Except.ok [FSAction.mkdirAll (dirPath h.name),
      FSAction.hardlink (joinPath h.name h.linkname) h.name] := by
  simp [untarFile, ht, typeDir, typeLink, typeReg, typeRegA, typeChar,
    typeBlock, typeFifo, typeSymlink, writeNewHardLink]

/-- Witness for the amended C7 at a concrete hard-link header. -/
theorem untar_hardlink_witness :
    untarFile ⟨["x"], typeLink, ["y"], 420⟩ =
      Except.ok [FSAction.mkdirAll (dirPath ["x"]),
        FSAction.hardlink (joinPath ["x"] ["y"]) ["x"]] :=
  untar_hardlink ⟨["x"], typeLink, ["y"], 420⟩ rfl

-- Stack compatibility gate

/-- Decision of the stack compatibility gate. -/
inductive GateDecision where
  | proceed
  | abort
deriving DecidableEq

/-- Modelled from the spec: the StackCompatibilityGate (section 4.6) source is
not in the repository snapshot (only the bitrise.yml stack-change test
exercises it).  Equal identities, or either identity unset (empty string),
proceed; differing identities abort unless fallback is allowed. -/
def checkStack (manifestStackId currentStackId : String) (allowFallback : Bool) :
    GateDecision :=
  if manifestStackId = "" ∨ currentStackId = "" then GateDecision.proceed
  else if manifestStackId = currentStackId then GateDecision.proceed
  else if allowFallback then GateDecision.proceed
  else GateDecision.abort

/-- The empty (unset) stack identity. -/
def emptyStack : String := ""

/-- A sample stack identity. -/
def stackA : String := "linux-docker-android"

/-- Another sample stack identity, distinct from stackA. -/
def stackB : String := "osx-xcode-10.0.x"

-- Claim theorem for the gate

/-- C4: the gate decision table, for set (nonempty) stack identities A and B
with A distinct from B: check(A,A,false) and check(A,B,true) proceed,
check(A,B,false) aborts, and an unset stack identity never blocks. -/
theorem stack_gate_table (A B : String) (hA : A ≠ emptyStack) (hB : B ≠ emptyStack)
    (hAB : A ≠ B) :
    checkStack A A false = GateDecision.proceed ∧
    checkStack A B false = GateDecision.abort ∧
    checkStack A B true = GateDecision.proceed ∧
    checkStack emptyStack B false = GateDecision.proceed := by
  rw [emptyStack] at hA hB
  refine ⟨?_, ?_, ?_, ?_⟩ <;> simp [checkStack, emptyStack, hA, hB, hAB]

/-- Witness for C4 at two concrete distinct stack identities. -/
theorem stack_gate_table_witness :
    checkStack stackA stackA false = GateDecision.proceed ∧
    checkStack stackA stackB false = GateDecision.abort ∧
    checkStack stackA stackB true = GateDecision.proceed ∧
    checkStack emptyStack stackB false = GateDecision.proceed :=
  stack_gate_table stackA stackB (by decide) (by decide) (by decide)

-- Downloader: URL resolution, single fetch, bounded retry

/-- Result of decoding the API response body into GenerateDownloadURLRespModel. -/
inductive BodyParse where
  | malformed
  | parsed (downloadURL : String)
deriving DecidableEq

/-- Observable outcome of the GET against the cache API endpoint. -/
structure APIResponse where
  transportFails : Bool
  bodyReadFails : Bool
  status : Nat
  body : BodyParse
deriving DecidableEq

/-- Error returned when the API transport fails (legacy main line 206). -/
def sendErrMsg : String := "Failed to send request"

/-- Error returned when the response body cannot be read (line 216). -/
def readBodyErrMsg : String := "Request sent, but failed to read response body"

/-- Error returned for a status outside 200-202 (line 220). -/
def cacheNotFoundMsg : String :=
  "Build cache not found. Probably cache not initialised yet (first cache push initialises the cache), nothing to worry about ;)"

/-- Error returned for a malformed JSON body (line 225). -/
def parseErrMsg : String := "Request sent, but failed to parse JSON response"

/-- Error returned for an empty download URL field (line 229). -/
def emptyURLMsg : String := "Request sent, but Download URL is empty"

/-- getCacheDownloadURL (legacy main, lines 192-233): GET the API endpoint,
read the body, require status in 200-202 (otherwise the cache-not-initialised
error), decode the JSON, require a nonempty download URL. -/
def getCacheDownloadURL (resp : APIResponse) : Except String String :=
  if resp.transportFails then Except.error sendErrMsg
  else if resp.bodyReadFails then Except.error readBodyErrMsg
  else if resp.status < 200 ∨ 202 < resp.status then Except.error cacheNotFoundMsg
  else
    match resp.body with
    | BodyParse.malformed => Except.error parseErrMsg
    | BodyParse.parsed u => if u = "" then Except.error emptyURLMsg else Except.ok u

/-- downloadFileWithRetry retry core (go-workspace main, lines 198-207): one
fetch attempt; on failure, sleep the fixed backoff and return the second
attempt's result verbatim.  `fetch` gives the outcome of each attempt; the
second component counts the fetch attempts made. -/
def downloadFileWithRetry (fetch : Nat → Except String Unit) :
    Except String Unit × Nat :=
  match fetch 0 with
  | Except.ok _ => (Except.ok (), 1)
  | Except.error _ => (fetch 1, 2)

/-- The fixed backoff before the single retry: time.Sleep(3000 ms). -/
def retryBackoffMillis : Nat := 3000

/-- downloadFileWithRetry (legacy main, lines 235-252): resolve the download
URL through the API first — a resolution failure is returned with zero fetch
attempts — then run the two-attempt fetch. -/
def downloadFileWithRetryAPI (resp : APIResponse) (fetch : Nat → Except String Unit) :
    Except String Unit × Nat :=
  match getCacheDownloadURL resp with
  | Except.error e => (Except.error e, 0)
  | Except.ok _ => downloadFileWithRetry fetch

/-- Process exit classification. -/
inductive ExitStatus where
  | success
  | failure
deriving DecidableEq

/-- main (legacy main, lines 254-298): no cache API URL configured is a
graceful success; a download (or resolution) error hits log.Fatalf, which
exits nonzero; then the archive is uncompressed, a failure again being fatal.
The second component counts fetch attempts. -/
def mainRun (cacheAPIURL : String) (resp : APIResponse)
    (fetch : Nat → Except String Unit) (uncompressResult : Except String Unit) :
    ExitStatus × Nat :=
  if cacheAPIURL = "" then (ExitStatus.success, 0)
  else
    match downloadFileWithRetryAPI resp fetch with
    | (Except.error _, n) => (ExitStatus.failure, n)
    | (Except.ok _, n) =>
      match uncompressResult with
      | Except.error _ => (ExitStatus.failure, n)
      | Except.ok _ => (ExitStatus.success, n)

-- Claim theorems for URL resolution and retry

/-- A concrete cache API URL. -/
def apiURL : String := "https://api.example.test/cache"

/-- A concrete download URL carried in a parsed response body. -/
def someURL : String := "https://cdn.example.test/archive.tar.gz"

/-- A 404 API response with a well-formed body. -/
def resp404 : APIResponse :=
  { transportFails := false, bodyReadFails := false, status := 404,
    body := BodyParse.parsed someURL }

/-- A fetch oracle whose every attempt succeeds. -/
def okFetch : Nat → Except String Unit := fun _ => Except.ok ()

/-- C5 counterexample: with the API endpoint answering 404, the run exits
with FAILURE status (log.Fatalf), not success as the claim states, even
though nothing is downloaded (zero fetch attempts). -/
theorem cache_404_cex :
    mainRun apiURL resp404 okFetch (Except.ok ()) = (ExitStatus.failure, 0) ∧
    ExitStatus.failure ≠ ExitStatus.success := by
  refine ⟨rfl, by decide⟩

/-- C5 amended: an HTTP status outside 200-202 (transport and body read
succeeding) is classified as the cache-not-yet-initialised condition and
surfaced as an error; nothing further is downloaded (zero fetch attempts) and
the run exits with failure status via log.Fatalf. -/
theorem cache_not_initialised_fatal (url : String) (resp : APIResponse)
    (fetch : Nat → Except String Unit) (unc : Except String Unit)
    (hurl : url ≠ "") (ht : resp.transportFails = false)
    (hb : resp.bodyReadFails = false) (hs : resp.status < 200 ∨ 202 < resp.status) :
    getCacheDownloadURL resp = Except.error cacheNotFoundMsg ∧
    downloadFileWithRetryAPI resp fetch = (Except.error cacheNotFoundMsg, 0) ∧
    mainRun url resp fetch unc = (ExitStatus.failure, 0) := by
  have h1 : getCacheDownloadURL resp = Except.error cacheNotFoundMsg := by
    simp [getCacheDownloadURL, ht, hb, hs]
  have h2 : downloadFileWithRetryAPI resp fetch = (Except.error cacheNotFoundMsg, 0) := by
    simp [downloadFileWithRetryAPI, h1]
  refine ⟨h1, h2, ?_⟩
  simp [mainRun, hurl, h2]

/-- Witness for the amended C5 at the concrete 404 response. -/
theorem cache_not_initialised_fatal_witness :
    getCacheDownloadURL resp404 = Except.error cacheNotFoundMsg ∧
    downloadFileWithRetryAPI resp404 okFetch = (Except.error cacheNotFoundMsg, 0) ∧
    mainRun apiURL resp404 okFetch (Except.ok ()) = (ExitStatus.failure, 0) :=
  cache_not_initialised_fatal apiURL resp404 okFetch (Except.ok ())
    (by decide) rfl rfl (by decide)

/-- C6: the retrying download makes at most two fetch attempts: a successful
first attempt ends the operation after one attempt; a failed first attempt is
followed, after the fixed 3000 ms backoff, by exactly one more attempt whose
result — in particular its error — is returned unchanged; the API-resolving
variant also never exceeds two attempts. -/
theorem retry_exactly_twice (fetch : Nat → Except String Unit) :
    (downloadFileWithRetry fetch).2 ≤ 2 ∧
    (fetch 0 = Except.ok () → downloadFileWithRetry fetch = (Except.ok (), 1)) ∧
    (∀ e, fetch 0 = Except.error e → downloadFileWithRetry fetch = (fetch 1, 2)) ∧
    retryBackoffMillis = 3000 ∧
    (∀ resp, (downloadFileWithRetryAPI resp fetch).2 ≤ 2) := by
  refine ⟨?_, ?_, ?_, rfl, ?_⟩
  · cases h : fetch 0 <;> simp [downloadFileWithRetry, h]
  · intro h
    simp [downloadFileWithRetry, h]
  · intro e h
    simp [downloadFileWithRetry, h]
  · intro resp
    cases h : getCacheDownloadURL resp with
    | error e => simp [downloadFileWithRetryAPI, h]
    | ok u =>
      cases h2 : fetch 0 <;>
        simp [downloadFileWithRetryAPI, h, downloadFileWithRetry, h2]

/-- Error produced by a failing demo fetch attempt. -/
def boomMsg : String := "Failed to download archive - non success response code: 500"

/-- A fetch oracle whose every attempt fails. -/
def errFetch : Nat → Except String Unit := fun _ => Except.error boomMsg

/-- Witness for C6: with both attempts failing, the second error is returned
verbatim after exactly two attempts. -/
theorem retry_exactly_twice_witness :
    downloadFileWithRetry errFetch = (Except.error boomMsg, 2) :=
  (retry_exactly_twice errFetch).2.2.1 boomMsg rfl

-- Content placement (uncompressCaches, go-workspace main variant)

/-- CacheContentModel (go-workspace main, lines 44-47), with paths as
component lists. -/
structure CacheContentModel where
  destinationPath : List String
  relativePathInArchive : List String
deriving DecidableEq

/-- Outcome of placing one cache item. -/
inductive PlaceResult where
  | mkdirFailed
  | moveFailed
  | moved
deriving DecidableEq

/-- Filesystem oracle for the placement loop: whether creating a given
directory fails, and whether renaming a given source to a given target fails. -/
structure PlaceEnv where
  mkdirFails : List String → Bool
  renameFails : List String → List String → Bool

/-- One iteration of the placement loop (go-workspace main, lines 134-153):
compute the source path under the extraction root and the target path, create
the target's parent directory (a failure is logged and the item skipped), then
move the item (a failure is logged and the item skipped). -/
def placeOne (env : PlaceEnv) (tmpDir : List String) (it : CacheContentModel) :
    PlaceResult :=
  let srcPath := joinPath tmpDir it.relativePathInArchive
  let targetBaseDir := dirPath it.destinationPath
  if env.mkdirFails targetBaseDir then PlaceResult.mkdirFailed
  else if env.renameFails srcPath it.destinationPath then PlaceResult.moveFailed
  else PlaceResult.moved

/-- uncompressCaches (go-workspace main, lines 106-156): extract the archive
with the external tar tool (a tool failure is fatal), then place every
manifest item in order, skipping per-item failures.  The first component is
the Go return value — the temp directory path on success, or the extraction
error; the second is the per-item outcome sequence observable only in the
log. -/
def uncompressCaches (env : PlaceEnv) (tmpDir : List String)
    (tarResult : Except String Unit) (contents : List CacheContentModel) :
    Except String (List String) × List PlaceResult :=
  match tarResult with
  | Except.error e => (Except.error e, [])
  | Except.ok _ => (Except.ok tmpDir, contents.map (placeOne env tmpDir))

/-- Number of skipped items in a placement outcome sequence. -/
def skippedCount (trace : List PlaceResult) : Nat :=
  (trace.filter (fun r => decide (r ≠ PlaceResult.moved))).length

/-- A placement environment in which every operation succeeds. -/
def envAllOk : PlaceEnv :=
  { mkdirFails := fun _ => false, renameFails := fun _ _ => false }

/-- A placement environment in which every directory creation fails. -/
def envMkdirFail : PlaceEnv :=
  { mkdirFails := fun _ => true, renameFails := fun _ _ => false }

/-- A concrete manifest item. -/
def demoItem : CacheContentModel :=
  { destinationPath := ["data", "File.txt"], relativePathInArchive := ["File.txt"] }

/-- A concrete extraction temp directory. -/
def demoTmp : List String := ["tmp", "cache123"]

-- Claim theorems for content placement

/-- C8 counterexample: two runs over the same one-item manifest, one with no
skip and one with the item skipped (its parent directory creation fails),
return the very same success value — so the returned value carries no count
of the skipped items, contradicting the claim that the operation returns
success together with such a count (skips are only logged). -/
theorem placement_no_count_cex :
    (uncompressCaches envAllOk demoTmp (Except.ok ()) [demoItem]).1 =
      (uncompressCaches envMkdirFail demoTmp (Except.ok ()) [demoItem]).1 ∧
    skippedCount (uncompressCaches envAllOk demoTmp (Except.ok ()) [demoItem]).2 = 0 ∧
    skippedCount (uncompressCaches envMkdirFail demoTmp (Except.ok ()) [demoItem]).2 = 1 := by
  refine ⟨rfl, rfl, rfl⟩

/-- C8 amended: placement processes every manifest item in manifest order; a
failure to create an item's parent directory or to move it only skips that
item, all remaining items are still processed, and the overall operation
never returns an error solely because of per-item placement failures — it
returns the temp directory path as success, with skipped items logged but no
count of them returned; errors arise only from the extraction step itself. -/
theorem placement_resilient (env : PlaceEnv) (tmpDir : List String)
    (contents : List CacheContentModel) :
    uncompressCaches env tmpDir (Except.ok ()) contents =
      (Except.ok tmpDir, contents.map (placeOne env tmpDir)) ∧
    (uncompressCaches env tmpDir (Except.ok ()) contents).2.length = contents.length ∧
    (∀ msg, uncompressCaches env tmpDir (Except.error msg) contents =
      (Except.error msg, [])) := by
  exact ⟨rfl, by simp [uncompressCaches], fun msg => rfl⟩

-- Single-attempt download (downloadFile)

/-- Observable environment of one downloadFile call. -/
structure DownloadEnv where
  createFails : Bool
  transportFails : Bool
  status : Nat
  body : List Nat
  copyInterruptedAt : Option Nat
deriving DecidableEq

/-- Error creating the local file (both main variants). -/
def createErrMsg : String := "Failed to open the local cache file for write"

/-- Error when the GET request fails. -/
def getErrMsg : String := "Failed to create cache download request"

/-- Error on a non-200 response status. -/
def statusErrMsg : String := "Failed to download archive - non success response code"

/-- Error when copying the response body into the file is interrupted. -/
def copyErrMsg : String := "Failed to save cache content into file"

/-- downloadFile (legacy main lines 56-109, go-workspace main lines 158-196):
os.Create truncates/creates the local file first, then the GET is issued,
status 200 is required, and the body is streamed into the file.  The second
component is the local file's content after the call; `none` means the file
does not exist.  `copyInterruptedAt n` models an io.Copy failure after n
bytes. -/
def downloadFile (env : DownloadEnv) (fs0 : Option (List Nat)) :
    Except String Unit × Option (List Nat) :=
  if env.createFails then (Except.error createErrMsg, fs0)
  else if env.transportFails then (Except.error getErrMsg, some [])
  else if env.status ≠ 200 then (Except.error statusErrMsg, some [])
  else
    match env.copyInterruptedAt with
    | some n => (Except.error copyErrMsg, some (env.body.take n))
    | none => (Except.ok (), some env.body)

-- Claim theorem for download non-atomicity

/-- C10: the single-attempt download is not atomic: whenever file creation
itself succeeds, the destination file exists after the call — truncated empty
on a transport failure or a non-200 status (both occur after the create), and
holding a partial prefix on an interrupted body copy — so the filesystem
state is not unchanged on error. -/
theorem download_not_atomic (env : DownloadEnv) (fs0 : Option (List Nat))
    (hc : env.createFails = false) :
    (downloadFile env fs0).2 ≠ none ∧
    (env.transportFails = true →
      downloadFile env fs0 = (Except.error getErrMsg, some [])) ∧
    (env.transportFails = false → env.status ≠ 200 →
      downloadFile env fs0 = (Except.error statusErrMsg, some [])) ∧
    (∀ n, env.transportFails = false → env.status = 200 →
      env.copyInterruptedAt = some n →
      downloadFile env fs0 = (Except.error copyErrMsg, some (env.body.take n))) := by
  refine ⟨?_, ?_, ?_, ?_⟩
  · by_cases ht : env.transportFails
    · simp [downloadFile, hc, ht]
    · by_cases hs : env.status = 200
      · cases hcopy : env.copyInterruptedAt <;> simp [downloadFile, hc, ht, hs, hcopy]
      · simp [downloadFile, hc, ht, hs]
  · intro ht
    simp [downloadFile, hc, ht]
  · intro ht hs
    simp [downloadFile, hc, ht, hs]
  · intro n ht hs hcopy
    simp [downloadFile, hc, ht, hs, hcopy]

/-- A download environment whose transport fails after the file is created. -/
def envTransportFail : DownloadEnv :=
  { createFails := false, transportFails := true, status := 0, body := [],
    copyInterruptedAt := none }

/-- Witness for C10: after a transport failure, the destination file exists
and is empty. -/
theorem download_not_atomic_witness :
    downloadFile envTransportFail none = (Except.error getErrMsg, some []) :=
  (download_not_atomic envTransportFail none rfl).2.1 rfl
